import Mathlib

/-!
Verification of the folder-based task lifecycle engine of the
Personal-AI-Employee repository: the deduplicating file-drop detector
(`scripts/filesystem_watcher.py`) and the polling orchestrator
(`scripts/orchestrator.py`), shallowly embedded in Lean.

Fallible Python operations (file reads, stats, writes, subprocess spawns)
are embedded as `Except Unit` values or as explicit outcome fields on the
input, so that every possible success/failure combination of the
underlying filesystem is a concrete input to the embedded functions.
-/

namespace AIEmployee

/-- Calendar timestamp with second granularity, as consumed by
`datetime.now().strftime(...)` and `.isoformat()` in the watcher. -/
structure DateTime where
  year : Nat
  month : Nat
  day : Nat
  hour : Nat
  minute : Nat
  second : Nat
  deriving DecidableEq

/-- Decimal digit character, used to render zero-padded strftime fields. -/
def digit_char (d : Nat) : Char := Char.ofNat (48 + d)

/-- Two-digit zero-padded decimal rendering (strftime `%m`, `%d`, `%H`,
`%M`, `%S` for in-range values). -/
def pad2 (n : Nat) : String := ⟨[digit_char (n / 10 % 10), digit_char (n % 10)]⟩

/-- Four-digit zero-padded decimal rendering (strftime `%Y` for years
up to 9999). -/
def pad4 (n : Nat) : String :=
  ⟨[digit_char (n / 1000 % 10), digit_char (n / 100 % 10),
    digit_char (n / 10 % 10), digit_char (n % 10)]⟩

/-- Embeds `datetime.now().strftime('%Y%m%d_%H%M%S')` from
`FileDropHandler._create_action_file`. -/
def timestamp_str (t : DateTime) : String :=
  pad4 t.year ++ pad2 t.month ++ pad2 t.day ++ "_" ++
    pad2 t.hour ++ pad2 t.minute ++ pad2 t.second

/-- Embeds `datetime.isoformat()` at second granularity. -/
def iso_str (t : DateTime) : String :=
  pad4 t.year ++ "-" ++ pad2 t.month ++ "-" ++ pad2 t.day ++ "T" ++
    pad2 t.hour ++ ":" ++ pad2 t.minute ++ ":" ++ pad2 t.second

/-- Embeds `source.name.replace(' ', '_').replace('.', '_')` from
`FileDropHandler._create_action_file` (line 60). -/
def safe_name (name : String) : String :=
  ⟨name.data.map (fun c => if c = ' ' ∨ c = '.' then '_' else c)⟩

/-- Embeds Python `str.lower` on extension strings (character-wise
lowercasing). -/
def lower_str (s : String) : String := ⟨s.data.map Char.toLower⟩

/-- Embeds the action-record filename
`f'FILE_DROP_{safe_name}_{timestamp}.md'` (line 61). -/
def action_filename (name timestamp : String) : String :=
  "FILE_DROP_" ++ safe_name name ++ "_" ++ timestamp ++ ".md"

/-- Embeds the raw-copy destination name
`f'{source.name}_{timestamp}'` (line 123). -/
def copy_filename (name timestamp : String) : String :=
  name ++ "_" ++ timestamp

/-- Embeds the allow-list `text_extensions` (line 119). -/
def text_extensions : List String :=
  [".txt", ".md", ".csv", ".json", ".xml", ".yaml", ".yml", ".log"]

/-- Embeds `pathlib.PurePath.suffix`: the extension from the last dot of
the final component, empty when the last dot is the first or the final
character (so `.hidden` and `a.` have no suffix). -/
def path_suffix (name : String) : String :=
  let cs := name.data
  let after := cs.reverse.takeWhile (fun c => c != '.')
  if after.length = cs.length then ""
  else if cs.length - after.length - 1 = 0 then ""
  else if after.length = 0 then ""
  else ⟨cs.drop (cs.length - after.length - 1)⟩

/-- Result of `source.stat()` during `_create_action_file`: size plus the
ctime/mtime already rendered to ISO strings. -/
structure FileMeta where
  st_size : Nat
  created_iso : String
  modified_iso : String
  deriving DecidableEq

/-- One file-creation event as delivered to `FileDropHandler.on_created`,
together with the outcome of every fallible filesystem interaction the
handler performs on the event's path:
`read_content` is the bytes of `open(path,'rb').read()` (none when the
read raises), `mtime_str` is `str(path.stat().st_mtime)` inside
`_get_file_hash` (none when that stat raises), `meta` is the metadata
stat inside `_create_action_file`, `write_ok` tells whether
`action_path.write_text` succeeds and `copy_ok` whether `shutil.copy2`
succeeds. -/
structure Event where
  is_directory : Bool
  name : String
  parent : String
  read_content : Option String
  mtime_str : Option String
  meta : Option FileMeta
  now : DateTime
  write_ok : Bool
  copy_ok : Bool
  deriving DecidableEq

/-- The YAML front-matter fields of one generated ActionRecord file,
plus the name it is written under. -/
structure ActionRecord where
  filename : String
  source_file : String
  file_size : Nat
  created : String
  modified : String
  detected : String
  status : String
  priority : String
  deriving DecidableEq

/-- State of one `FileDropHandler` instance: the watched drop directory
and the process-local de-dup set `self.processed_files`. -/
structure FileDropHandler where
  drop_path : String
  processed_files : List String
  deriving DecidableEq

/-- Embeds Python `set.add` on the seen-set (a set has no duplicates). -/
def set_add (l : List String) (a : String) : List String :=
  if a ∈ l then l else a :: l

/-- Embeds `FileDropHandler._get_file_hash` (lines 45-51): md5 of the
full contents; on a read failure, fall back to `str(stat().st_mtime)`.
A failure of that stat as well is raised inside the `except` clause and
propagates to the caller. The md5 digest itself is kept abstract as the
function argument `md5hex`. -/
def get_file_hash (md5hex : String → String) (e : Event) : Except Unit String :=
  match e.read_content with
  | some content => .ok (md5hex content)
  | none =>
    match e.mtime_str with
    | some m => .ok m
    | none => .error ()

/-- Embeds `FileDropHandler._create_action_file` (lines 53-129): build the
timestamped record name, stat the source (falling back to size 0 and the
current time on failure), write the record file (a write failure raises),
and for textual extensions also copy the raw source bytes (a copy failure
is only logged). Returns the record and the optional copy name. -/
def create_action_file (e : Event) : Except Unit (ActionRecord × Option String) :=
  let timestamp := timestamp_str e.now
  let sizeCreatedModified :=
    match e.meta with
    | some m => (m.st_size, m.created_iso, m.modified_iso)
    | none => (0, iso_str e.now, iso_str e.now)
  if e.write_ok then
    let record : ActionRecord :=
      { filename := action_filename e.name timestamp
        source_file := e.name
        file_size := sizeCreatedModified.1
        created := sizeCreatedModified.2.1
        modified := sizeCreatedModified.2.2
        detected := iso_str e.now
        status := "pending"
        priority := "normal" }
    let copyResult : Option String :=
      if lower_str (path_suffix e.name) ∈ text_extensions then
        if e.copy_ok then some (copy_filename e.name timestamp) else none
      else none
    .ok (record, copyResult)
  else .error ()

/-- Embeds `source.name.startswith('~') or source.name.startswith('.')`
(line 145). -/
def temp_or_hidden (name : String) : Bool :=
  match name.data with
  | [] => false
  | c :: _ => c == '~' || c == '.'

/-- Observable outcome of one `on_created` call that did not raise:
the event was discarded (filtered or deduplicated), or record creation
failed and was logged (line 168-169), or a record was created together
with an optional raw copy. -/
inductive EventResult where
  | discarded
  | failed
  | created (record : ActionRecord) (copy : Option String)
  deriving DecidableEq

/-- True exactly on the `created` outcome. -/
def is_created : EventResult → Bool
  | .created _ _ => true
  | _ => false

/-- Embeds `FileDropHandler.on_created` (lines 131-169), in the source's
own order: the directory check, then the de-dup fingerprint computation
and seen-set check, then the temporary/hidden-name filter, then the
parent-directory filter, then (inside `try`) the debounce sleep, record
creation and the `processed_files.add`. An `.error` value is an
exception escaping the handler (the fingerprint computation at line 139
sits outside the `try` block). -/
def on_created (md5hex : String → String) (h : FileDropHandler) (e : Event) :
    Except Unit (FileDropHandler × EventResult) :=
  if e.is_directory then .ok (h, .discarded)
  else
    match get_file_hash md5hex e with
    | .error _ => .error ()
    | .ok file_hash =>
      if file_hash ∈ h.processed_files then .ok (h, .discarded)
      else if temp_or_hidden e.name then .ok (h, .discarded)
      else if e.parent ≠ h.drop_path then .ok (h, .discarded)
      else
        match create_action_file e with
        | .ok (record, copy) =>
          .ok ({ h with processed_files := set_add h.processed_files file_hash },
               .created record copy)
        | .error _ => .ok (h, .failed)

/-- Reachability between handler states of one continuous watcher-process
lifetime: zero or more non-raising `on_created` steps. -/
inductive Steps (md5hex : String → String) : FileDropHandler → FileDropHandler → Prop
  | refl (h : FileDropHandler) : Steps md5hex h h
  | tail {h h' h'' : FileDropHandler} (e : Event) (r : EventResult) :
      Steps md5hex h h' → on_created md5hex h' e = .ok (h'', r) → Steps md5hex h h''

/-- Modelled from the spec sentence for the refinement comparison of the
filter ordering: the three filters (directory, temporary/hidden name,
foreign parent) applied in order, and only then the fingerprint computed
and checked against the seen-set. -/
def on_created_spec_order (md5hex : String → String) (h : FileDropHandler) (e : Event) :
    Except Unit (FileDropHandler × EventResult) :=
  if e.is_directory then .ok (h, .discarded)
  else if temp_or_hidden e.name then .ok (h, .discarded)
  else if e.parent ≠ h.drop_path then .ok (h, .discarded)
  else
    match get_file_hash md5hex e with
    | .error _ => .error ()
    | .ok file_hash =>
      if file_hash ∈ h.processed_files then .ok (h, .discarded)
      else
        match create_action_file e with
        | .ok (record, copy) =>
          .ok ({ h with processed_files := set_add h.processed_files file_hash },
               .created record copy)
        | .error _ => .ok (h, .failed)

/-! Embedding of `scripts/orchestrator.py`. -/

/-- Embeds the canonical folder list of `Orchestrator._ensure_folders`
(lines 66-76). -/
def folders : List String :=
  ["Inbox", "Needs_Action", "Done", "Pending_Approval", "Approved",
   "Rejected", "Plans", "Logs", "Briefings"]

/-- Embeds `Path.mkdir(parents=True, exist_ok=True)` on the set of
directories existing under the vault root: creating an already-existing
directory is not an error and changes nothing. -/
def mkdir_exist_ok (dirs : List String) (d : String) : List String :=
  if d ∈ dirs then dirs else dirs ++ [d]

/-- Embeds `Orchestrator._ensure_folders` (lines 64-79): mkdir every
canonical folder in order. -/
def ensure_folders (dirs : List String) : List String :=
  folders.foldl mkdir_exist_ok dirs

/-- Embeds the pathlib glob pattern `'*.md'` used by both stage scans:
a name matches exactly when its last three characters are `.md`. -/
def matches_md_glob (name : String) : Bool :=
  decide (name.data.reverse.take 3 = ['d', 'm', '.'])

/-- Embeds `Orchestrator.check_needs_action` (lines 125-135): an absent
stage directory yields `[]`, otherwise the directory listing filtered by
the `'*.md'` pattern. -/
def check_needs_action (needs_action_folder : Option (List String)) : List String :=
  match needs_action_folder with
  | none => []
  | some listing => listing.filter matches_md_glob

/-- Embeds `Orchestrator.check_approved_actions` (lines 267-277). -/
def check_approved_actions (approved_folder : Option (List String)) : List String :=
  match approved_folder with
  | none => []
  | some listing => listing.filter matches_md_glob

/-- One structured log entry appended by `Orchestrator._log_pending_tasks`
(lines 226-265): the `action_type` header field, the `count` field, the
enumerated pending items, and whether the manual-processing hint
(`Run qwen in the vault directory`) is included. -/
structure LogEntry where
  action_type : String
  count : Nat
  items : List String
  manual_hint : Bool
  deriving DecidableEq

/-- Embeds `Orchestrator._log_pending_tasks` (lines 226-265). The body has
no exception handler, so a failing filesystem append (modelled by
`log_write_ok = false`) raises to the caller. -/
def log_pending_tasks (log_write_ok : Bool) (task_files : List String) :
    Except Unit LogEntry :=
  if log_write_ok then
    .ok { action_type := "pending_tasks_detected"
          count := task_files.length
          items := task_files
          manual_hint := true }
  else .error ()

/-- Outcome of the `subprocess.Popen(['qwen', ...])` call inside
`Orchestrator._invoke_qwen_code`: spawned, `FileNotFoundError`, or any
other exception. -/
inductive SpawnResult where
  | spawned
  | not_found
  | other_error
  deriving DecidableEq

/-- Embeds `Orchestrator._invoke_qwen_code` (lines 161-224): spawn the
agent fire-and-forget; on `FileNotFoundError` (agent binary missing) or
any other spawn exception, fall back to `_log_pending_tasks`. Returns the
log entry the fallback appended, if any. -/
def invoke_qwen_code (spawn : SpawnResult) (log_write_ok : Bool)
    (task_files : List String) : Except Unit (Option LogEntry) :=
  match spawn with
  | .spawned => .ok none
  | .not_found =>
    match log_pending_tasks log_write_ok task_files with
    | .ok entry => .ok (some entry)
    | .error e => .error e
  | .other_error =>
    match log_pending_tasks log_write_ok task_files with
    | .ok entry => .ok (some entry)
    | .error e => .error e

/-- Outcomes the environment hands each sub-operation of one
`Orchestrator.run_cycle` call: the two stage scans, the agent trigger for
pending tasks, and the approved-actions processing (its log append). -/
structure CycleEnv where
  check_needs_action_result : Except Unit (List String)
  trigger_result : Except Unit Unit
  check_approved_result : Except Unit (List String)
  process_approved_result : Except Unit Unit

/-- One observable step performed during a cycle. -/
inductive CycleAction where
  | scanned_needs_action (tasks : List String)
  | triggered_qwen (tasks : List String)
  | scanned_approved (files : List String)
  | processed_approved (files : List String)
  deriving DecidableEq

/-- Embeds `Orchestrator.run_cycle` (lines 334-344): scan `Needs_Action`
and trigger the agent when non-empty, then scan `Approved` and process
when non-empty. The body contains no `try`/`except`, so the first raising
sub-operation aborts the cycle; the result is the list of steps actually
performed plus whether the cycle completed without an exception. -/
def run_cycle (env : CycleEnv) : List CycleAction × Bool :=
  match env.check_needs_action_result with
  | .error _ => ([], false)
  | .ok pending_tasks =>
    let acts := [CycleAction.scanned_needs_action pending_tasks]
    let afterTrigger : Option (List CycleAction) :=
      if pending_tasks.isEmpty then some acts
      else
        match env.trigger_result with
        | .error _ => none
        | .ok _ => some (acts ++ [CycleAction.triggered_qwen pending_tasks])
    match afterTrigger with
    | none => (acts, false)
    | some acts2 =>
      match env.check_approved_result with
      | .error _ => (acts2, false)
      | .ok approved_actions =>
        let acts3 := acts2 ++ [CycleAction.scanned_approved approved_actions]
        if approved_actions.isEmpty then (acts3, true)
        else
          match env.process_approved_result with
          | .error _ => (acts3, false)
          | .ok _ => (acts3 ++ [CycleAction.processed_approved approved_actions], true)

/-- Behaviour of the supervised watcher child process towards a
termination request: it either exits within the 5-second wait, or ignores
the graceful request (`wait(timeout=5)` raises `TimeoutExpired`). -/
inductive ProcBehavior where
  | exits_in_time
  | ignores_terminate
  deriving DecidableEq

/-- One process-control call performed by `Orchestrator.stop_watcher`. -/
inductive StopAction where
  | terminate
  | wait (timeout : Nat)
  | kill
  deriving DecidableEq

/-- Embeds `Orchestrator.stop_watcher` (lines 112-123): when a watcher
handle is present, send `terminate()`, `wait(timeout=5)`, and on
`TimeoutExpired` escalate to `kill()`; finally clear the handle. When no
handle is present, do nothing. Returns the new handle and the calls
performed. -/
def stop_watcher (watcher_process : Option ProcBehavior) :
    Option ProcBehavior × List StopAction :=
  match watcher_process with
  | none => (none, [])
  | some .exits_in_time => (none, [.terminate, .wait 5])
  | some .ignores_terminate => (none, [.terminate, .wait 5, .kill])

/-- Total blocking time of a list of stop actions, in seconds:
`terminate()` and `kill()` return immediately, `wait t` blocks for at
most `t` seconds. -/
def stop_time : List StopAction → Nat
  | [] => 0
  | .wait t :: rest => t + stop_time rest
  | _ :: rest => stop_time rest

/-! Concrete inputs used to exercise the embedded functions. -/

/-- A well-behaved drop of `a.txt` with contents `x`. -/
def w1_e1 : Event :=
  { is_directory := false, name := "a.txt", parent := "Inbox",
    read_content := some "x", mtime_str := some "99.5",
    meta := some ⟨5, "c0", "m0"⟩, now := ⟨2025, 1, 1, 12, 0, 0⟩,
    write_ok := true, copy_ok := true }

/-- A later drop of `b.txt` with the same contents `x` (same fingerprint
as `w1_e1`). -/
def w1_e2 : Event :=
  { is_directory := false, name := "b.txt", parent := "Inbox",
    read_content := some "x", mtime_str := some "99.7",
    meta := some ⟨5, "c1", "m1"⟩, now := ⟨2025, 1, 1, 12, 0, 5⟩,
    write_ok := true, copy_ok := true }

/-- The ActionRecord produced for `w1_e1`. -/
def w1_record : ActionRecord :=
  { filename := "FILE_DROP_a_txt_20250101_120000.md", source_file := "a.txt",
    file_size := 5, created := "c0", modified := "m0",
    detected := "2025-01-01T12:00:00", status := "pending", priority := "normal" }

/-- A directory-creation event whose path is neither readable nor
statable. -/
def w3_dir : Event :=
  { is_directory := true, name := "sub", parent := "Inbox",
    read_content := none, mtime_str := none, meta := none,
    now := ⟨2025, 1, 1, 12, 0, 0⟩, write_ok := true, copy_ok := true }

/-- A drop of `k.txt` with contents `k`. -/
def w3_seen : Event :=
  { is_directory := false, name := "k.txt", parent := "Inbox",
    read_content := some "k", mtime_str := some "12.5",
    meta := some ⟨1, "c0", "m0"⟩, now := ⟨2025, 1, 1, 12, 0, 0⟩,
    write_ok := true, copy_ok := true }

/-- A hidden file that can be neither read nor stat-ed by the time the
handler runs (deleted right after the creation event fired). -/
def cx3_event : Event :=
  { is_directory := false, name := ".hidden", parent := "Inbox",
    read_content := none, mtime_str := none, meta := none,
    now := ⟨2025, 1, 1, 12, 0, 0⟩, write_ok := true, copy_ok := true }

/-- A drop of `a.txt` with contents `x` at 2025-01-01 12:00:00. -/
def cx4_e1 : Event :=
  { is_directory := false, name := "a.txt", parent := "Inbox",
    read_content := some "x", mtime_str := some "99.5",
    meta := some ⟨1, "c0", "m0"⟩, now := ⟨2025, 1, 1, 12, 0, 0⟩,
    write_ok := true, copy_ok := true }

/-- A second drop named `a.txt` with different contents `y`, in the same
second as `cx4_e1` (the file was replaced immediately). -/
def cx4_e2 : Event :=
  { is_directory := false, name := "a.txt", parent := "Inbox",
    read_content := some "y", mtime_str := some "99.9",
    meta := some ⟨1, "c1", "m1"⟩, now := ⟨2025, 1, 1, 12, 0, 0⟩,
    write_ok := true, copy_ok := true }

/-- The ActionRecord produced for `cx4_e1`. -/
def cx4_record1 : ActionRecord :=
  { filename := "FILE_DROP_a_txt_20250101_120000.md", source_file := "a.txt",
    file_size := 1, created := "c0", modified := "m0",
    detected := "2025-01-01T12:00:00", status := "pending", priority := "normal" }

/-- The ActionRecord produced for `cx4_e2`: same filename as the record
of `cx4_e1`. -/
def cx4_record2 : ActionRecord :=
  { filename := "FILE_DROP_a_txt_20250101_120000.md", source_file := "a.txt",
    file_size := 1, created := "c1", modified := "m1",
    detected := "2025-01-01T12:00:00", status := "pending", priority := "normal" }

/-- A plain visible file in the drop directory that can be neither read
nor stat-ed when the handler runs. -/
def cx7_event : Event :=
  { is_directory := false, name := "data.txt", parent := "Inbox",
    read_content := none, mtime_str := none, meta := none,
    now := ⟨2025, 1, 1, 12, 0, 0⟩, write_ok := true, copy_ok := true }

/-- A drop whose contents cannot be read but whose mtime stat succeeds. -/
def w7a_event : Event :=
  { is_directory := false, name := "locked.txt", parent := "Inbox",
    read_content := none, mtime_str := some "88.25",
    meta := none, now := ⟨2025, 1, 1, 12, 0, 0⟩,
    write_ok := true, copy_ok := true }

/-- A drop of `b.txt` whose record write fails. -/
def w9_fail : Event :=
  { is_directory := false, name := "b.txt", parent := "Inbox",
    read_content := some "z", mtime_str := some "77.5",
    meta := some ⟨3, "c0", "m0"⟩, now := ⟨2025, 1, 1, 12, 0, 0⟩,
    write_ok := false, copy_ok := true }

/-- A later creation event for the same contents `z`, whose record write
succeeds. -/
def w9_retry : Event :=
  { is_directory := false, name := "b.txt", parent := "Inbox",
    read_content := some "z", mtime_str := some "77.5",
    meta := some ⟨3, "c0", "m0"⟩, now := ⟨2025, 1, 1, 12, 0, 30⟩,
    write_ok := true, copy_ok := true }

/-- The ActionRecord produced for `w9_retry`. -/
def w9_record : ActionRecord :=
  { filename := "FILE_DROP_b_txt_20250101_120030.md", source_file := "b.txt",
    file_size := 3, created := "c0", modified := "m0",
    detected := "2025-01-01T12:00:30", status := "pending", priority := "normal" }

/-! Helper lemmas. -/

/-- Membership is preserved by `mkdir_exist_ok`. -/
theorem mem_mkdir_of_mem {dirs : List String} {d x : String} (hx : x ∈ dirs) :
    x ∈ mkdir_exist_ok dirs d := by
  unfold mkdir_exist_ok
  split
  · exact hx
  · exact List.mem_append_left _ hx

/-- The created directory is a member of the result of `mkdir_exist_ok`. -/
theorem mem_mkdir_self (dirs : List String) (d : String) :
    d ∈ mkdir_exist_ok dirs d := by
  unfold mkdir_exist_ok
  split
  · assumption
  · exact List.mem_append_right _ (List.mem_singleton.mpr rfl)

/-- Membership is preserved by folding `mkdir_exist_ok` over any folder
list. -/
theorem mem_foldl_mkdir_of_mem (fs : List String) {dirs : List String} {x : String}
    (hx : x ∈ dirs) : x ∈ fs.foldl mkdir_exist_ok dirs := by
  induction fs generalizing dirs with
  | nil => exact hx
  | cons f rest ih => exact ih (mem_mkdir_of_mem hx)

/-- Every folder of the folded list is present in the result. -/
theorem mem_foldl_mkdir_of_mem_folders {fs : List String} {dirs : List String} {x : String}
    (hx : x ∈ fs) : x ∈ fs.foldl mkdir_exist_ok dirs := by
  induction fs generalizing dirs with
  | nil => cases hx
  | cons f rest ih =>
    rcases List.mem_cons.mp hx with h | h
    · subst h
      exact mem_foldl_mkdir_of_mem rest (mem_mkdir_self dirs x)
    · exact ih h

/-- Folding `mkdir_exist_ok` over folders that all already exist changes
nothing. -/
theorem foldl_mkdir_of_all_mem {fs : List String} {dirs : List String}
    (hall : ∀ f ∈ fs, f ∈ dirs) : fs.foldl mkdir_exist_ok dirs = dirs := by
  induction fs with
  | nil => rfl
  | cons f rest ih =>
    have hf : mkdir_exist_ok dirs f = dirs := by
      unfold mkdir_exist_ok
      rw [if_pos (hall f (List.mem_cons_self f rest))]
    simp only [List.foldl_cons, hf]
    exact ih fun g hg => hall g (List.mem_cons_of_mem f hg)

/-! Claim theorems. -/

/-- C8: directory initialization is idempotent. `_ensure_folders` on a
vault whose nine canonical stage directories all exist performs no change
(and, by construction of `mkdir_exist_ok`, raises no error), and running
it twice in succession equals running it once. -/
theorem ensure_folders_idempotent (dirs : List String) :
    ((∀ f ∈ folders, f ∈ dirs) → ensure_folders dirs = dirs) ∧
    ensure_folders (ensure_folders dirs) = ensure_folders dirs := by
  constructor
  · intro hall
    exact foldl_mkdir_of_all_mem hall
  · exact foldl_mkdir_of_all_mem fun f hf => mem_foldl_mkdir_of_mem_folders hf

/-- Witness for C8: on the fully populated canonical vault, setup is the
identity, twice as once. -/
theorem ensure_folders_idempotent_witness :
    ensure_folders folders = folders ∧
    ensure_folders (ensure_folders folders) = ensure_folders folders :=
  ⟨(ensure_folders_idempotent folders).1 (fun _ hf => hf),
   (ensure_folders_idempotent folders).2⟩

/-- C5: `stop_watcher` always clears the handle, performs at most a
terminate, one 5-second bounded wait and possibly a kill (so it blocks at
most 5 seconds), escalates to a forced kill exactly when the process
ignores graceful termination, is a no-op when nothing is running, and a
second consecutive call performs no action. -/
theorem stop_watcher_bounded_idempotent (w : Option ProcBehavior) :
    (stop_watcher w).1 = none ∧
    stop_watcher (stop_watcher w).1 = ((stop_watcher w).1, []) ∧
    (w = none → stop_watcher w = (none, [])) ∧
    stop_time (stop_watcher w).2 ≤ 5 ∧
    (w = some ProcBehavior.ignores_terminate → StopAction.kill ∈ (stop_watcher w).2) := by
  rcases w with _ | b
  · simp [stop_watcher, stop_time]
  · cases b <;> simp [stop_watcher, stop_time]

/-- Witness for C5: stopping when nothing runs is a no-op, and stopping a
process that ignores termination issues a kill. -/
theorem stop_watcher_bounded_idempotent_witness :
    stop_watcher none = (none, []) ∧
    StopAction.kill ∈ (stop_watcher (some ProcBehavior.ignores_terminate)).2 :=
  ⟨(stop_watcher_bounded_idempotent none).2.2.1 rfl,
   (stop_watcher_bounded_idempotent (some ProcBehavior.ignores_terminate)).2.2.2.2 rfl⟩

/-- C6 counterexample: when the agent binary is missing and the log
append fails (e.g. the Logs directory is not writable), the fallback of
`_invoke_qwen_code` raises instead of completing, so the fallback is not
exception-free for every filesystem state. -/
theorem fallback_raises_counterexample :
    invoke_qwen_code SpawnResult.not_found false
      ["FILE_DROP_report_txt_20260101_000000.md"] = .error () := rfl

/-- C6 (amended): when the agent binary cannot be located, the trigger
falls back to appending one structured log entry enumerating the pending
items with the manual-processing hint; the fallback completes whenever
the log append itself succeeds, and propagates the exception when the
append fails. -/
theorem qwen_not_found_fallback (task_files : List String) (log_write_ok : Bool) :
    invoke_qwen_code SpawnResult.not_found log_write_ok task_files =
      (if log_write_ok then
        .ok (some { action_type := "pending_tasks_detected",
                    count := task_files.length,
                    items := task_files,
                    manual_hint := true })
      else .error ()) := by
  cases log_write_ok <;> rfl

/-- C2 counterexample: a cycle whose `Needs_Action` scan raises performs
no step at all — in particular the `Approved` stage, whose own scan would
have succeeded and returned a record, is not scanned in that cycle. -/
theorem run_cycle_isolation_counterexample :
    run_cycle ⟨.error (), .ok (), .ok ["ACTION.md"], .ok ()⟩ = ([], false) := rfl

/-- C2 (amended): `run_cycle` runs the two stage scans sequentially with
no per-stage exception isolation. A failure in the `Approved` scan or
handling can never prevent the `Needs_Action` scan (which always runs
first and is recorded whenever it succeeds), but a failure while scanning
`Needs_Action` aborts the cycle with no step performed, and a failure
while triggering the agent aborts the cycle before the `Approved` scan. -/
theorem run_cycle_sequential_abort (env : CycleEnv) :
    (∀ pending, env.check_needs_action_result = .ok pending →
      CycleAction.scanned_needs_action pending ∈ (run_cycle env).1) ∧
    (env.check_needs_action_result = .error () → (run_cycle env).1 = []) ∧
    (∀ pending, env.check_needs_action_result = .ok pending →
      pending.isEmpty = false → env.trigger_result = .error () →
      (run_cycle env).1 = [CycleAction.scanned_needs_action pending]) := by
  rcases env with ⟨na, tr, ap, pr⟩
  refine ⟨?_, ?_, ?_⟩
  · intro pending hna
    subst hna
    by_cases hp : pending.isEmpty <;>
      rcases tr with u | u <;>
      rcases ap with l | l <;>
      rcases pr with v | v <;>
      simp [run_cycle, hp] <;>
      split <;> simp
  · intro hna
    subst hna
    rfl
  · intro pending hna hp htr
    subst hna
    subst htr
    simp [run_cycle, hp]

/-- Witness for C2 (amended): with a failing trigger the `Needs_Action`
scan is still recorded, and with a failing `Needs_Action` scan nothing
runs. -/
theorem run_cycle_sequential_abort_witness :
    CycleAction.scanned_needs_action ["t.md"] ∈
      (run_cycle ⟨.ok ["t.md"], .error (), .ok [], .ok ()⟩).1 ∧
    (run_cycle ⟨.error (), .ok (), .ok [], .ok ()⟩).1 = [] :=
  ⟨(run_cycle_sequential_abort ⟨.ok ["t.md"], .error (), .ok [], .ok ()⟩).1 ["t.md"] rfl,
   (run_cycle_sequential_abort ⟨.error (), .ok (), .ok [], .ok ()⟩).2.1 rfl⟩

/-- The underlying character list of a timestamp has the fixed length 15
(`YYYYMMDD_HHMMSS`). -/
theorem timestamp_str_data_length (t : DateTime) : (timestamp_str t).data.length = 15 := by
  simp [timestamp_str, String.data_append, pad2, pad4]

/-- Reversed character list of a timestamp: it begins with the two
seconds digits. -/
theorem timestamp_str_data_reverse (t : DateTime) :
    (timestamp_str t).data.reverse =
      digit_char (t.second % 10) :: digit_char (t.second / 10 % 10) ::
        (pad4 t.year ++ pad2 t.month ++ pad2 t.day ++ "_" ++
          pad2 t.hour ++ pad2 t.minute).data.reverse := by
  simp [timestamp_str, String.data_append, pad2, pad4]

/-- No decimal digit character is the letter `d`. -/
theorem digit_char_ne_d (n : Nat) : digit_char (n % 10) ≠ 'd' := by
  have hfin : ∀ m : Fin 10, digit_char m.val ≠ 'd' := by decide
  exact hfin ⟨n % 10, Nat.mod_lt n (by decide)⟩

/-- C4 counterexample: two distinct creation events (different contents,
hence different fingerprints; both create a record) whose source names
and second-granularity timestamps coincide produce the same record
filename, so the second record overwrites the first. -/
theorem record_filename_collision :
    on_created id ⟨"Inbox", []⟩ cx4_e1 =
      .ok (⟨"Inbox", ["x"]⟩, .created cx4_record1 (some "a.txt_20250101_120000")) ∧
    on_created id ⟨"Inbox", ["x"]⟩ cx4_e2 =
      .ok (⟨"Inbox", ["y", "x"]⟩, .created cx4_record2 (some "a.txt_20250101_120000")) ∧
    cx4_record1.filename = cx4_record2.filename ∧
    cx4_e1 ≠ cx4_e2 :=
  ⟨rfl, rfl, rfl, by decide⟩

/-- C4 (amended): two generated record filenames are distinct exactly
when the safe-escaped source names or the second-granularity timestamps
differ; two record-creating events sharing both produce the identical
filename (and the later write overwrites the earlier record). -/
theorem action_filename_distinct_iff (n1 n2 : String) (t1 t2 : DateTime) :
    action_filename n1 (timestamp_str t1) = action_filename n2 (timestamp_str t2) ↔
      (safe_name n1 = safe_name n2 ∧ timestamp_str t1 = timestamp_str t2) := by
  constructor
  · intro h
    have hd := congrArg String.data h
    simp only [action_filename, String.data_append, List.append_assoc] at hd
    have hd2 := List.append_cancel_left hd
    have hlen : ("_".data ++ ((timestamp_str t1).data ++ ".md".data)).length =
        ("_".data ++ ((timestamp_str t2).data ++ ".md".data)).length := by
      have h1 : ("_".data).length = 1 := rfl
      have h3 : (".md".data).length = 3 := rfl
      have hL : ∀ t : DateTime, (timestamp_str t).length = 15 :=
        fun t => timestamp_str_data_length t
      simp [List.length_append, h1, h3, timestamp_str_data_length, hL]
    obtain ⟨hsafe, hrest⟩ := List.append_inj' hd2 hlen
    have hts := List.append_cancel_left hrest
    have hts2 := List.append_cancel_right hts
    exact ⟨String.ext hsafe, String.ext hts2⟩
  · rintro ⟨h1, h2⟩
    simp [action_filename, h1, h2]

/-- Witness for C4 (amended): `a.txt` and `a txt` have the same
safe-escaped name, so in the same second they map to the same record
filename. -/
theorem action_filename_distinct_iff_witness :
    action_filename "a.txt" (timestamp_str ⟨2025, 1, 1, 12, 0, 0⟩) =
      action_filename "a txt" (timestamp_str ⟨2025, 1, 1, 12, 0, 0⟩) :=
  (action_filename_distinct_iff "a.txt" "a txt"
    ⟨2025, 1, 1, 12, 0, 0⟩ ⟨2025, 1, 1, 12, 0, 0⟩).mpr ⟨rfl, rfl⟩

/-- C10: both stage scans return only names matching the `'*.md'` record
pattern; the raw source copies the watcher places alongside records
(`<name>_<timestamp>`, whose last character is a seconds digit) never
match the pattern, hence are never returned by either scan, while the
generated record filenames always match it. -/
theorem scans_return_only_md_records :
    (∀ d x, x ∈ check_needs_action d → matches_md_glob x = true) ∧
    (∀ d x, x ∈ check_approved_actions d → matches_md_glob x = true) ∧
    (∀ name t, matches_md_glob (copy_filename name (timestamp_str t)) = false) ∧
    (∀ d name t, copy_filename name (timestamp_str t) ∉ check_needs_action d ∧
      copy_filename name (timestamp_str t) ∉ check_approved_actions d) ∧
    (∀ name t, matches_md_glob (action_filename name (timestamp_str t)) = true) := by
  have hna : ∀ d x, x ∈ check_needs_action d → matches_md_glob x = true := by
    intro d x hx
    rcases d with _ | listing
    · cases hx
    · exact (List.mem_filter.mp hx).2
  have hap : ∀ d x, x ∈ check_approved_actions d → matches_md_glob x = true := by
    intro d x hx
    rcases d with _ | listing
    · cases hx
    · exact (List.mem_filter.mp hx).2
  have hcopy : ∀ name t, matches_md_glob (copy_filename name (timestamp_str t)) = false := by
    intro name t
    rw [matches_md_glob, decide_eq_false_iff_not]
    intro heq
    have hdata : (copy_filename name (timestamp_str t)).data =
        name.data ++ '_' :: (timestamp_str t).data := by
      have hu : ("_" : String).data = ['_'] := rfl
      simp [copy_filename, String.data_append, hu]
    rw [hdata, List.reverse_append, List.reverse_cons, timestamp_str_data_reverse] at heq
    simp only [List.cons_append, List.append_assoc] at heq
    injection heq with h1 _
    exact digit_char_ne_d t.second h1
  refine ⟨hna, hap, hcopy, ?_, ?_⟩
  · intro d name t
    constructor
    · intro hmem
      have := hna d _ hmem
      rw [hcopy name t] at this
      cases this
    · intro hmem
      have := hap d _ hmem
      rw [hcopy name t] at this
      cases this
  · intro name t
    rw [matches_md_glob, decide_eq_true_iff]
    have hdata : (action_filename name (timestamp_str t)).data =
        ("FILE_DROP_" ++ safe_name name ++ "_" ++ timestamp_str t).data ++ ".md".data := by
      simp [action_filename, String.data_append]
    rw [hdata, List.reverse_append]
    have hmd : (".md".data).reverse = ['d', 'm', '.'] := rfl
    rw [hmd]
    rfl

/-- Witness for C10: a `.md` record name returned by the scan matches the
pattern, and a concrete raw copy name does not match it. -/
theorem scans_return_only_md_records_witness :
    matches_md_glob "FILE_DROP_x_md_20260101_000000.md" = true ∧
    matches_md_glob (copy_filename "report.txt" (timestamp_str ⟨2026, 10, 12, 9, 30, 0⟩)) = false :=
  ⟨scans_return_only_md_records.1 (some ["FILE_DROP_x_md_20260101_000000.md"])
      "FILE_DROP_x_md_20260101_000000.md" (by decide),
   scans_return_only_md_records.2.2.1 "report.txt" ⟨2026, 10, 12, 9, 30, 0⟩⟩

/-- The added fingerprint is a member of the updated seen-set. -/
theorem mem_set_add_self (l : List String) (a : String) : a ∈ set_add l a := by
  unfold set_add
  split
  · assumption
  · exact List.mem_cons_self a l

/-- Adding to the seen-set preserves membership. -/
theorem mem_set_add_of_mem {l : List String} {a x : String} (hx : x ∈ l) :
    x ∈ set_add l a := by
  unfold set_add
  split
  · exact hx
  · exact List.mem_cons_of_mem a hx

/-- Complete case analysis of one `on_created` call: it raises (only when
the fingerprint computation raises on a non-directory event), or discards
with the state unchanged, or it passed every filter and the dedup check
and attempted record creation — ending `failed` with the state unchanged,
or `created` with exactly the event's fingerprint added to the seen-set. -/
theorem on_created_cases (md5hex : String → String) (h : FileDropHandler) (e : Event) :
    (on_created md5hex h e = .error () ∧ e.is_directory = false ∧
      get_file_hash md5hex e = .error ()) ∨
    on_created md5hex h e = .ok (h, .discarded) ∨
    (∃ fp, get_file_hash md5hex e = .ok fp ∧ fp ∉ h.processed_files ∧
      e.is_directory = false ∧ temp_or_hidden e.name = false ∧
      e.parent = h.drop_path ∧
      ((create_action_file e = .error () ∧ on_created md5hex h e = .ok (h, .failed)) ∨
       (∃ record copy, create_action_file e = .ok (record, copy) ∧
         on_created md5hex h e =
           .ok ({ h with processed_files := set_add h.processed_files fp },
                .created record copy)))) := by
  unfold on_created
  split
  · exact .inr (.inl rfl)
  · rename_i hdir
    rw [Bool.not_eq_true] at hdir
    split
    · rename_i u hfh
      exact .inl ⟨rfl, hdir, by rw [hfh]⟩
    · rename_i fp hfh
      split
      · exact .inr (.inl rfl)
      · rename_i hmem
        split
        · exact .inr (.inl rfl)
        · rename_i hhid
          rw [Bool.not_eq_true] at hhid
          split
          · exact .inr (.inl rfl)
          · rename_i hpar
            rw [not_not] at hpar
            split
            · rename_i record copy hcreate
              exact .inr (.inr ⟨fp, hfh, hmem, hdir, hhid, hpar,
                .inr ⟨record, copy, hcreate, rfl⟩⟩)
            · rename_i u hcreate
              exact .inr (.inr ⟨fp, hfh, hmem, hdir, hhid, hpar,
                .inl ⟨by rw [hcreate], rfl⟩⟩)

/-- An event whose fingerprint is already in the seen-set is discarded
with no state change (whether or not it is a directory event). -/
theorem discarded_of_seen (md5hex : String → String) (h : FileDropHandler) (e : Event)
    (fp : String) (hfp : get_file_hash md5hex e = .ok fp)
    (hmem : fp ∈ h.processed_files) :
    on_created md5hex h e = .ok (h, .discarded) := by
  cases hdir : e.is_directory
  · simp [on_created, hdir, hfp, hmem]
  · simp [on_created, hdir]

/-- An event that passes every filter and whose fingerprint is fresh
reaches `create_action_file`; the outcome is `created` (with the
fingerprint added) when creation succeeds, `failed` (state unchanged)
when it raises. -/
theorem on_created_passes_filters (md5hex : String → String) (h : FileDropHandler)
    (e : Event) (fp : String)
    (hdir : e.is_directory = false) (hfp : get_file_hash md5hex e = .ok fp)
    (hmem : fp ∉ h.processed_files) (hhid : temp_or_hidden e.name = false)
    (hpar : e.parent = h.drop_path) :
    on_created md5hex h e =
      match create_action_file e with
      | .ok (record, copy) =>
        .ok ({ h with processed_files := set_add h.processed_files fp },
             .created record copy)
      | .error _ => .ok (h, .failed) := by
  rcases hc : create_action_file e with u | ⟨record, copy⟩ <;>
    simp [on_created, hdir, hfp, hmem, hhid, hpar, hc]

/-- After a `created` outcome, the fingerprint of the event is in the
resulting seen-set. -/
theorem mem_processed_after_created (md5hex : String → String)
    {h h' : FileDropHandler} {e : Event} {record : ActionRecord}
    {copy : Option String} {fp : String}
    (heq : on_created md5hex h e = .ok (h', .created record copy))
    (hfp : get_file_hash md5hex e = .ok fp) :
    fp ∈ h'.processed_files := by
  rcases on_created_cases md5hex h e with ⟨hv, _, _⟩ | hv |
      ⟨fp', hfp', hmem', hdir', hhid', hpar', ⟨hcf, hv⟩ | ⟨record', copy', hcf, hv⟩⟩
  · rw [hv] at heq
    exact absurd heq (by simp)
  · rw [hv] at heq
    exact absurd heq (by simp)
  · rw [hv] at heq
    exact absurd heq (by simp)
  · rw [hv] at heq
    have hfp2 : fp' = fp := by
      rw [hfp] at hfp'
      injection hfp' with hx
      exact hx.symm
    have hh : { h with processed_files := set_add h.processed_files fp' } = h' := by
      injection heq with hp
      exact congrArg Prod.fst hp
    rw [← hh, hfp2]
    exact mem_set_add_self h.processed_files fp

/-- The seen-set only ever grows across one `on_created` step. -/
theorem processed_mono_step (md5hex : String → String)
    {h h' : FileDropHandler} {e : Event} {r : EventResult}
    (heq : on_created md5hex h e = .ok (h', r)) :
    ∀ x ∈ h.processed_files, x ∈ h'.processed_files := by
  intro x hx
  rcases on_created_cases md5hex h e with ⟨hv, _, _⟩ | hv |
      ⟨fp', hfp', hmem', hdir', hhid', hpar', ⟨hcf, hv⟩ | ⟨record', copy', hcf, hv⟩⟩
  · rw [hv] at heq
    exact absurd heq (by simp)
  · rw [hv] at heq
    have hh : h = h' := by
      injection heq with hp
      exact congrArg Prod.fst hp
    rw [← hh]
    exact hx
  · rw [hv] at heq
    have hh : h = h' := by
      injection heq with hp
      exact congrArg Prod.fst hp
    rw [← hh]
    exact hx
  · rw [hv] at heq
    have hh : { h with processed_files := set_add h.processed_files fp' } = h' := by
      injection heq with hp
      exact congrArg Prod.fst hp
    rw [← hh]
    exact mem_set_add_of_mem hx

/-- The seen-set only ever grows across a whole lifetime. -/
theorem processed_mono_steps (md5hex : String → String)
    {h h' : FileDropHandler} (hs : Steps md5hex h h') :
    ∀ x ∈ h.processed_files, x ∈ h'.processed_files := by
  induction hs with
  | refl => exact fun x hx => hx
  | tail e r hs hstep ih => exact fun x hx => processed_mono_step md5hex hstep x (ih x hx)

/-- C1: within one continuous watcher-process lifetime, at most one
ActionRecord is created per fingerprint. If one `on_created` call
created a record for fingerprint `fp`, then after any further sequence of
handled events, another creation event with the same fingerprint never
produces a record. -/
theorem dedup_at_most_once (md5hex : String → String)
    (h h1 h2 h3 : FileDropHandler) (e1 e2 : Event) (fp : String)
    (record : ActionRecord) (copy : Option String) (r2 : EventResult)
    (hfirst : on_created md5hex h e1 = .ok (h1, .created record copy))
    (hfp1 : get_file_hash md5hex e1 = .ok fp)
    (hsteps : Steps md5hex h1 h2)
    (hfp2 : get_file_hash md5hex e2 = .ok fp)
    (hsecond : on_created md5hex h2 e2 = .ok (h3, r2)) :
    is_created r2 = false := by
  have hm1 : fp ∈ h1.processed_files := mem_processed_after_created md5hex hfirst hfp1
  have hm2 : fp ∈ h2.processed_files := processed_mono_steps md5hex hsteps fp hm1
  have hdisc := discarded_of_seen md5hex h2 e2 fp hfp2 hm2
  rw [hdisc] at hsecond
  have hr : EventResult.discarded = r2 := by
    injection hsecond with hp
    exact congrArg Prod.snd hp
  rw [← hr]
  rfl

/-- Witness for C1: a drop of `a.txt` with contents `x` creates a record;
an immediately following drop of `b.txt` with the same contents is
discarded, creating nothing. -/
theorem dedup_at_most_once_witness :
    on_created id ⟨"Inbox", []⟩ w1_e1 =
      .ok (⟨"Inbox", ["x"]⟩, .created w1_record (some "a.txt_20250101_120000")) ∧
    is_created EventResult.discarded = false :=
  ⟨rfl,
   dedup_at_most_once id ⟨"Inbox", []⟩ ⟨"Inbox", ["x"]⟩ ⟨"Inbox", ["x"]⟩
     ⟨"Inbox", ["x"]⟩ w1_e1 w1_e2 "x" w1_record (some "a.txt_20250101_120000")
     EventResult.discarded rfl rfl (Steps.refl _) rfl rfl⟩

/-- C3 counterexample: a hidden dotfile that is gone (neither readable
nor statable) by the time the handler runs. The claimed order — filters
(a), (b), (c) before the fingerprint — would discard it silently (shown
on `on_created_spec_order`), but the code computes the fingerprint before
the hidden-name filter, so the stat failure raises out of the handler
instead of the event being discarded without side effect. -/
theorem filter_order_counterexample :
    on_created id ⟨"Inbox", []⟩ cx3_event = .error () ∧
    on_created_spec_order id ⟨"Inbox", []⟩ cx3_event =
      .ok (⟨"Inbox", []⟩, .discarded) ∧
    temp_or_hidden cx3_event.name = true :=
  ⟨rfl, rfl, rfl⟩

/-- C3 (amended): the directory filter is applied first; the
deduplication fingerprint is computed and checked *before* the
temporary/hidden-name filter and the parent-directory filter. An event
discarded by any filter or by the dedup check produces no record and
leaves the handler state unchanged; but when the fingerprint computation
fails on a non-directory event, the exception propagates out of the
handler before filters (b) and (c) are consulted. -/
theorem filter_order_in_code (md5hex : String → String)
    (h : FileDropHandler) (e : Event) :
    (e.is_directory = true → on_created md5hex h e = .ok (h, .discarded)) ∧
    (e.is_directory = false → get_file_hash md5hex e = .error () →
      on_created md5hex h e = .error ()) ∧
    (∀ fp, get_file_hash md5hex e = .ok fp → fp ∈ h.processed_files →
      on_created md5hex h e = .ok (h, .discarded)) ∧
    (∀ fp, get_file_hash md5hex e = .ok fp → temp_or_hidden e.name = true →
      on_created md5hex h e = .ok (h, .discarded)) ∧
    (∀ fp, get_file_hash md5hex e = .ok fp → e.parent ≠ h.drop_path →
      on_created md5hex h e = .ok (h, .discarded)) := by
  refine ⟨?_, ?_, ?_, ?_, ?_⟩
  · intro hdir
    simp [on_created, hdir]
  · intro hdir herr
    simp [on_created, hdir, herr]
  · intro fp hfp hmem
    exact discarded_of_seen md5hex h e fp hfp hmem
  · intro fp hfp hhid
    cases hdir : e.is_directory
    · by_cases hmem : fp ∈ h.processed_files <;> simp [on_created, hdir, hfp, hmem, hhid]
    · simp [on_created, hdir]
  · intro fp hfp hpar
    cases hdir : e.is_directory
    · by_cases hmem : fp ∈ h.processed_files <;>
        by_cases hhid : temp_or_hidden e.name <;>
        simp [on_created, hdir, hfp, hmem, hhid, hpar]
    · simp [on_created, hdir]

/-- Witness for C3 (amended): a directory event is discarded unchanged
even though its fingerprint computation would fail, and a seen
fingerprint is discarded unchanged. -/
theorem filter_order_in_code_witness :
    on_created id ⟨"Inbox", []⟩ w3_dir = .ok (⟨"Inbox", []⟩, .discarded) ∧
    on_created id ⟨"Inbox", ["k"]⟩ w3_seen = .ok (⟨"Inbox", ["k"]⟩, .discarded) :=
  ⟨(filter_order_in_code id ⟨"Inbox", []⟩ w3_dir).1 rfl,
   (filter_order_in_code id ⟨"Inbox", ["k"]⟩ w3_seen).2.2.1 "k" rfl (by decide)⟩

/-- C7 counterexample: a visible file directly in the drop directory
(passing every filter) that can be neither read nor stat-ed. The claim
says the fingerprint falls back and a record is still written; the code
instead raises out of the event handler from `_get_file_hash` and writes
no record. -/
theorem fingerprint_double_failure_counterexample :
    on_created id ⟨"Inbox", []⟩ cx7_event = .error () ∧
    cx7_event.is_directory = false ∧
    temp_or_hidden cx7_event.name = false ∧
    cx7_event.parent = "Inbox" :=
  ⟨rfl, rfl, rfl, rfl⟩

/-- C7 (amended): a read failure during fingerprinting falls back to the
mtime fingerprint; a stat failure during metadata collection falls back
to size 0 and current timestamps and the record is still written (and the
fingerprint is then recorded); but when the read *and* the fingerprint
mtime-stat both fail on a non-directory event, the exception propagates
out of the handler and no record is written. -/
theorem degraded_metadata_amended (md5hex : String → String)
    (h : FileDropHandler) (e : Event) (fp m : String) :
    (e.read_content = none → e.mtime_str = some m →
      get_file_hash md5hex e = .ok m) ∧
    (e.read_content = none → e.mtime_str = none → e.is_directory = false →
      on_created md5hex h e = .error ()) ∧
    (get_file_hash md5hex e = .ok fp → e.is_directory = false →
      fp ∉ h.processed_files → temp_or_hidden e.name = false →
      e.parent = h.drop_path → e.meta = none → e.write_ok = true →
      ∃ record copy,
        on_created md5hex h e =
          .ok ({ h with processed_files := set_add h.processed_files fp },
               .created record copy) ∧
        record.file_size = 0 ∧ record.created = iso_str e.now ∧
        record.modified = iso_str e.now) := by
  refine ⟨?_, ?_, ?_⟩
  · intro hrc hmt
    simp [get_file_hash, hrc, hmt]
  · intro hrc hmt hdir
    simp [on_created, get_file_hash, hrc, hmt, hdir]
  · intro hfp hdir hmem hhid hpar hmeta hwrite
    have hcf : create_action_file e = .ok
        ({ filename := action_filename e.name (timestamp_str e.now),
           source_file := e.name, file_size := 0,
           created := iso_str e.now, modified := iso_str e.now,
           detected := iso_str e.now, status := "pending", priority := "normal" },
         if lower_str (path_suffix e.name) ∈ text_extensions then
           (if e.copy_ok then some (copy_filename e.name (timestamp_str e.now)) else none)
         else none) := by
      simp [create_action_file, hmeta, hwrite]
    have hrun := on_created_passes_filters md5hex h e fp hdir hfp hmem hhid hpar
    rw [hcf] at hrun
    exact ⟨_, _, hrun, rfl, rfl, rfl⟩

/-- Witness for C7 (amended): an unreadable file falls back to the mtime
fingerprint, and an unreadable, unstatable file raises out of the
handler. -/
theorem degraded_metadata_amended_witness :
    get_file_hash id w7a_event = .ok "88.25" ∧
    on_created id ⟨"Inbox", []⟩ cx7_event = .error () :=
  ⟨(degraded_metadata_amended id ⟨"Inbox", []⟩ w7a_event "fp" "88.25").1 rfl rfl,
   (degraded_metadata_amended id ⟨"Inbox", []⟩ cx7_event "fp" "m").2.1 rfl rfl rfl⟩

/-- C9: the fingerprint is added to the seen-set only after the record
was successfully written. When record creation raises (`failed`
outcome), the handler state is unchanged and the fingerprint remains
outside the seen-set, so a later event with the same fingerprint passing
the filters reaches record creation again instead of being silently
deduplicated. -/
theorem seen_set_only_after_success (md5hex : String → String)
    (h h' : FileDropHandler) (e : Event) (fp : String)
    (hfail : on_created md5hex h e = .ok (h', .failed))
    (hfp : get_file_hash md5hex e = .ok fp) :
    h' = h ∧ fp ∉ h.processed_files ∧
    (∀ e2, get_file_hash md5hex e2 = .ok fp → e2.is_directory = false →
      temp_or_hidden e2.name = false → e2.parent = h.drop_path →
      ∀ h2 r2, on_created md5hex h' e2 = .ok (h2, r2) → r2 ≠ EventResult.discarded) := by
  rcases on_created_cases md5hex h e with ⟨hv, _, _⟩ | hv |
      ⟨fp', hfp', hmem', hdir', hhid', hpar', ⟨hcf, hv⟩ | ⟨record', copy', hcf, hv⟩⟩
  · rw [hv] at hfail
    exact absurd hfail (by simp)
  · rw [hv] at hfail
    exact absurd hfail (by simp)
  · rw [hv] at hfail
    have hh : h = h' := by
      injection hfail with hp
      exact congrArg Prod.fst hp
    have hfpeq : fp' = fp := by
      rw [hfp] at hfp'
      injection hfp' with hx
      exact hx.symm
    subst hfpeq
    refine ⟨hh.symm, hmem', ?_⟩
    intro e2 hfp2 hdir2 hhid2 hpar2 h2 r2 hrun2
    rw [← hh] at hrun2
    have hrun := on_created_passes_filters md5hex h e2 fp' hdir2 hfp2 hmem' hhid2 hpar2
    rw [hrun] at hrun2
    rcases hc2 : create_action_file e2 with u | ⟨record2, copy2⟩ <;> rw [hc2] at hrun2
    · have hr : EventResult.failed = r2 := by
        injection hrun2 with hp
        exact congrArg Prod.snd hp
      rw [← hr]
      exact fun hcontra => nomatch hcontra
    · have hr : EventResult.created record2 copy2 = r2 := by
        injection hrun2 with hp
        exact congrArg Prod.snd hp
      rw [← hr]
      exact fun hcontra => nomatch hcontra
  · rw [hv] at hfail
    exact absurd hfail (by simp)

/-- Witness for C9: a failed write for contents `z` leaves the seen-set
empty; the retry event reaches creation and succeeds. -/
theorem seen_set_only_after_success_witness :
    on_created id ⟨"Inbox", []⟩ w9_fail = .ok (⟨"Inbox", []⟩, .failed) ∧
    "z" ∉ (⟨"Inbox", []⟩ : FileDropHandler).processed_files ∧
    on_created id ⟨"Inbox", []⟩ w9_retry =
      .ok (⟨"Inbox", ["z"]⟩, .created w9_record (some "b.txt_20250101_120030")) ∧
    EventResult.created w9_record (some "b.txt_20250101_120030") ≠ EventResult.discarded :=
  ⟨rfl,
   (seen_set_only_after_success id ⟨"Inbox", []⟩ ⟨"Inbox", []⟩ w9_fail "z" rfl rfl).2.1,
   rfl,
   (seen_set_only_after_success id ⟨"Inbox", []⟩ ⟨"Inbox", []⟩ w9_fail "z" rfl rfl).2.2
     w9_retry rfl rfl rfl rfl ⟨"Inbox", ["z"]⟩
     (EventResult.created w9_record (some "b.txt_20250101_120030")) rfl⟩

end AIEmployee
